import Mathlib

/-
Verification of the market-analysis core of CheckBinanceApp2.0
(src/CheckBinanceApp2.0.py) against its natural-language specification.

The embedding translates the analysis core directly from the Python source:
  - MarketAnalysisThread.market_analysis  (classifier over the latest
    indicator values; note the missing return on the high-ADX fall-through
    path, embedded as Option.none),
  - MarketAnalysisThread.trading_decision (recommendation builder),
  - MarketAnalysisThread.get_historical_data (column coercion and row
    dropping of the fetched kline table),
  - MarketAnalysisThread.run              (the per-symbol batch loop and
    its incremental emissions),
  - BinanceApp.analyze_market             (symbol parsing and batch-size
    validation).
The external libraries the source calls are modelled as follows: the
provider call outcome (futures_klines, which the source wraps in a
try/except returning None on BinanceAPIException) is a parameter of type
Option (List RawKline); pandas numeric coercion with errors set to
coerce is modelled by a concrete decimal parser pd_to_numeric mapping
non-numeric text to NaN; the four indicator computations of the ta
library are abstracted as an oracle of functions from the data frame to
rational values, since the repository only consumes their latest values.
Machine floats of the source are modelled as exact rationals, and the
fixed 8-decimal rendering of prices in the output text is modelled by an
exact rational rendering.
-/

namespace CheckBinanceApp

/-- Trend labels: the first components of the pairs returned by
market_analysis, named after the Vietnamese strings in the source
("Tăng", "Giảm", "Đi ngang", "Không ổn định"). -/
inductive Trend where
  | tang
  | giam
  | diNgang
  | khongOnDinh
  deriving DecidableEq, Repr

/-- Trade signals: the second components of the pairs returned by
market_analysis ("mua" = buy, "bán" = sell, "không" = none). -/
inductive Signal where
  | mua
  | ban
  | khong
  deriving DecidableEq, Repr

/-- MarketAnalysisThread.market_analysis, lines 241-259 of the source,
as a function of the four latest indicator values it extracts
(macd.macd().iloc[-1], macd.macd_signal().iloc[-1], adx.adx().iloc[-1],
rsi.rsi().iloc[-1]).  The Python body is an if/elif/else chain whose
first branch (adx_value > 25) contains an inner if/elif WITHOUT an else:
when adx_value > 25 and neither inner condition holds the Python function
falls off the end and returns None, which is embedded as Option.none
(the caller unpacks the result as a pair, so this path raises at runtime). -/
def market_analysis (latest_macd latest_signal adx_value rsi_value : ℚ) :
    Option (Trend × Signal) :=
  if adx_value > 25 then
    if latest_macd > latest_signal ∧ rsi_value < 70 then
      some (Trend.tang, Signal.mua)
    else if latest_macd < latest_signal ∧ rsi_value > 30 then
      some (Trend.giam, Signal.ban)
    else
      none
  else if adx_value < 20 then
    some (Trend.diNgang, Signal.khong)
  else
    some (Trend.khongOnDinh, Signal.khong)

/-- Structured content of the strings returned by trading_decision:
an opened buy order with its take-profit and stop-loss, an opened sell
order with its take-profit and stop-loss, or no recommended action. -/
inductive Decision where
  | moLenhMua : ℚ → ℚ → Decision
  | moLenhBan : ℚ → ℚ → Decision
  | khongKhuyenNghi
  deriving DecidableEq, Repr

/-- MarketAnalysisThread.trading_decision, lines 261-275 of the source,
as a function of the last close price (data["close"].iloc[-1]), the
latest ATR value (atr.average_true_range().iloc[-1]) and the signal.
The source compares the signal string against "mua" and "bán" with a
final catch-all else; over the Signal enumeration this is the match
below. -/
def trading_decision (close_price latest_atr : ℚ) (sig : Signal) : Decision :=
  match sig with
  | Signal.mua => Decision.moLenhMua (close_price + latest_atr * 2) (close_price - latest_atr * 2)
  | Signal.ban => Decision.moLenhBan (close_price - latest_atr * 2) (close_price + latest_atr * 2)
  | Signal.khong => Decision.khongKhuyenNghi

/-- A raw kline row as returned by the provider: every field arrives as a
string.  The source builds a 12-column data frame; only the columns the
analysis touches are kept here (timestamp stays raw and unused, and the
six trailing columns close_time, quote_asset_volume, number_of_trades,
taker_buy_base_asset_volume, taker_buy_quote_asset_volume and ignore are
never read by the analysis, so they are omitted).  The open column of the
source is named open_ because open is a Lean keyword. -/
structure RawKline where
  timestamp : String
  open_ : String
  high : String
  low : String
  close : String
  volume : String
  deriving DecidableEq, Repr

/-- A data-frame cell after the source's column processing: still raw
text for the columns never passed through numeric coercion, a rational
for successfully coerced values, or NaN for failed coercions. -/
inductive Cell where
  | str : String → Cell
  | num : ℚ → Cell
  | nan : Cell
  deriving DecidableEq, Repr

/-- Whether a cell is NaN (the value dropna tests for). -/
def Cell.isNan : Cell → Bool
  | Cell.nan => true
  | _ => false

/-- Digits-to-number accumulator used by the decimal parser. -/
def natFromDigits (cs : List Char) : ℕ :=
  cs.foldl (fun acc c => acc * 10 + (c.toNat - 48)) 0

/-- Unsigned decimal numeral parser: one or more digits, optionally
followed by a point and one or more digits. -/
def parseUnsigned (cs : List Char) : Option ℚ :=
  match cs.span Char.isDigit with
  | (intPart, rest) =>
    if intPart.isEmpty then none
    else
      match rest with
      | [] => some (natFromDigits intPart : ℚ)
      | '.' :: frac =>
        if frac.isEmpty then none
        else if frac.all Char.isDigit then
          some ((natFromDigits intPart : ℚ) + (natFromDigits frac : ℚ) / (10 : ℚ) ^ frac.length)
        else none
      | _ => none

/-- Model of pandas numeric coercion with errors set to coerce, applied
by get_historical_data to the close, high, low and volume columns: a
decimal numeral (optionally negative) maps to its exact rational value,
anything else to NaN. -/
def pd_to_numeric (s : String) : Cell :=
  match s.data with
  | '-' :: rest =>
    match parseUnsigned rest with
    | some q => Cell.num (-q)
    | none => Cell.nan
  | cs =>
    match parseUnsigned cs with
    | some q => Cell.num q
    | none => Cell.nan

/-- A processed data-frame row after the coercion statements of
get_historical_data: high, low, close and volume have been passed
through numeric coercion, while timestamp and open keep their raw
values (the source never coerces the open column). -/
structure ProcRow where
  timestamp : String
  open_ : Cell
  high : Cell
  low : Cell
  close : Cell
  volume : Cell
  deriving DecidableEq, Repr

/-- The per-row effect of the four coercion assignments in
get_historical_data, lines 233-236 of the source. -/
def coerceRow (r : RawKline) : ProcRow :=
  { timestamp := r.timestamp
    open_ := Cell.str r.open_
    high := pd_to_numeric r.high
    low := pd_to_numeric r.low
    close := pd_to_numeric r.close
    volume := pd_to_numeric r.volume }

/-- The dropna predicate with subset high, low, close: a row survives
exactly when none of those three cells is NaN. -/
def dropna_hlc (r : ProcRow) : Bool :=
  !r.high.isNan && !r.low.isNan && !r.close.isNan

/-- The data-frame processing of MarketAnalysisThread.get_historical_data,
lines 228-237 of the source: build rows, coerce the four columns, drop
the rows whose high, low or close failed coercion. -/
def get_historical_data_frame (klines : List RawKline) : List ProcRow :=
  (klines.map coerceRow).filter dropna_hlc

/-- MarketAnalysisThread.get_historical_data, lines 225-239: the
futures_klines call is wrapped in try/except with the except branch
returning None; its outcome is the parameter (none standing for a raised
BinanceAPIException), and a successful fetch is post-processed into the
frame. -/
def get_historical_data (fetch : Option (List RawKline)) : Option (List ProcRow) :=
  fetch.map get_historical_data_frame

/-- The items of the interval combo box installed by BinanceApp.init_ui,
lines 73-76 of the source. -/
def interval_combo_items : List String := ["4h", "1d"]

/-- The combo box default selection: setCurrentIndex(0) picks the first
item. -/
def interval_combo_default : String := interval_combo_items.headI

/-- The interval argument of the futures_klines call in
get_historical_data, line 227: hard-coded, the combo selection is never
read by the analysis thread. -/
def futures_klines_interval : String := "1d"

/-- The limit argument of the futures_klines call in get_historical_data,
line 227. -/
def futures_klines_limit : ℕ := 100

/-- The four latest indicator values the analysis reads from the ta
library, abstracted as functions of the processed data frame (the
repository consumes only macd.macd().iloc[-1], macd.macd_signal().iloc[-1],
adx.adx().iloc[-1], rsi.rsi().iloc[-1] and
atr.average_true_range().iloc[-1]). -/
structure TaOracle where
  macd : List ProcRow → ℚ
  macd_signal : List ProcRow → ℚ
  adx : List ProcRow → ℚ
  rsi : List ProcRow → ℚ
  average_true_range : List ProcRow → ℚ

/-- The last close price read by trading_decision,
data["close"].iloc[-1]: the close cell of the last row.  Rows surviving
dropna always carry a numeric close, so the default 0 for a non-numeric
or absent cell is never reached on the frames the loop passes in. -/
def close_iloc_last (data : List ProcRow) : ℚ :=
  match data.getLast? with
  | some r =>
    match r.close with
    | Cell.num q => q
    | _ => 0
  | none => 0

/-- Exact rational rendering standing in for the fixed 8-decimal float
formatting of the source's output strings. -/
def ratText (q : ℚ) : String :=
  toString q.num ++ "/" ++ toString q.den

/-- Rendering of a trend label, the exact strings of the source. -/
def Trend.text : Trend → String
  | Trend.tang => "Tăng"
  | Trend.giam => "Giảm"
  | Trend.diNgang => "Đi ngang"
  | Trend.khongOnDinh => "Không ổn định"

/-- Rendering of a signal, the exact strings of the source. -/
def Signal.text : Signal → String
  | Signal.mua => "mua"
  | Signal.ban => "bán"
  | Signal.khong => "không"

/-- Rendering of a decision, the strings returned by trading_decision
(price formatting abstracted by ratText). -/
def Decision.text : Decision → String
  | Decision.moLenhMua tp sl =>
      "Mở lệnh mua.\n - Chốt lời (TP): " ++ ratText tp ++ "\n - Cắt lỗ (SL): " ++ ratText sl
  | Decision.moLenhBan tp sl =>
      "Mở lệnh bán.\n - Chốt lời (TP): " ++ ratText tp ++ "\n - Cắt lỗ (SL): " ++ ratText sl
  | Decision.khongKhuyenNghi => "Không khuyến nghị hành động."

/-- The first transcript line the loop appends for a symbol. -/
def analyzeLine (symbol : String) : String :=
  "Đang phân tích " ++ symbol ++ "...\n"

/-- The transcript line for a failed or empty fetch. -/
def noDataLine (symbol : String) : String :=
  "Không thể lấy dữ liệu cho " ++ symbol ++ ".\n"

/-- The transcript line for a series shorter than 14 rows. -/
def insufficientLine (symbol : String) : String :=
  "Dữ liệu cho " ++ symbol ++ " không đủ để phân tích ADX.\n"

/-- The full analysis block appended for a successfully analysed symbol. -/
def analysisBlock (symbol : String) (trend : Trend) (sig : Signal) (decision : Decision) : String :=
  "Phân tích cho " ++ symbol ++ ":\n" ++
  " - Xu hướng thị trường: " ++ trend.text ++ "\n" ++
  " - Tín hiệu giao dịch: " ++ sig.text ++ "\n" ++
  " - Kết luận: " ++ decision.text ++ "\n\n"

/-- One symbol of a batch together with the outcome of the provider call
the loop will make for it (none = BinanceAPIException raised). -/
structure SymbolInput where
  symbol : String
  fetch : Option (List RawKline)
  deriving DecidableEq, Repr

/-- The loop body of MarketAnalysisThread.run, lines 200-223 of the
source, over the remaining symbols and the accumulated transcript
string; the returned list is the sequence of update_result emissions, in
order.  Per symbol the loop appends the analysing line, then: on a
failed or empty fetch appends the no-data line and continues WITHOUT
emitting; on fewer than 14 rows appends the insufficient line and
continues WITHOUT emitting; otherwise it classifies, builds the
decision, appends the analysis block and emits the whole transcript.
When market_analysis falls through (returns none) the unpacking
assignment raises TypeError and the thread dies: no further symbol is
processed and nothing more is emitted, embedded as returning no further
emissions. -/
def runLoop (ta : TaOracle) : List SymbolInput → String → List String
  | [], _ => []
  | s :: rest, result =>
    match get_historical_data s.fetch with
    | none => runLoop ta rest (result ++ analyzeLine s.symbol ++ noDataLine s.symbol)
    | some data =>
      if data.isEmpty then
        runLoop ta rest (result ++ analyzeLine s.symbol ++ noDataLine s.symbol)
      else if data.length < 14 then
        runLoop ta rest (result ++ analyzeLine s.symbol ++ insufficientLine s.symbol)
      else
        match market_analysis (ta.macd data) (ta.macd_signal data) (ta.adx data) (ta.rsi data) with
        | none => []
        | some (trend, sig) =>
          (result ++ analyzeLine s.symbol ++
            analysisBlock s.symbol trend sig
              (trading_decision (close_iloc_last data) (ta.average_true_range data) sig)) ::
          runLoop ta rest
            (result ++ analyzeLine s.symbol ++
              analysisBlock s.symbol trend sig
                (trading_decision (close_iloc_last data) (ta.average_true_range data) sig))

/-- MarketAnalysisThread.run: the loop started on the empty transcript. -/
def run (ta : TaOracle) (symbols : List SymbolInput) : List String :=
  runLoop ta symbols ""

/-- Classification of what the loop body does for one symbol, mirroring
the branch structure of runLoop: skipped with a no-data line, skipped
with an insufficient-data line, killed by the classifier fall-through,
or fully analysed (the only case that emits). -/
inductive SymOutcome where
  | noData
  | insufficient
  | crash
  | analysed
  deriving DecidableEq, Repr

/-- The branch of runLoop taken for one symbol. -/
def symOutcome (ta : TaOracle) (s : SymbolInput) : SymOutcome :=
  match get_historical_data s.fetch with
  | none => SymOutcome.noData
  | some data =>
    if data.isEmpty then SymOutcome.noData
    else if data.length < 14 then SymOutcome.insufficient
    else
      match market_analysis (ta.macd data) (ta.macd_signal data) (ta.adx data) (ta.rsi data) with
      | none => SymOutcome.crash
      | some _ => SymOutcome.analysed

/-- One string extends another: the relation between successive
emissions of one run (the earlier transcript is a prefix of the later). -/
def chainStep (a b : String) : Prop :=
  ∃ c, b = a ++ c

/-- Split of a character list at commas, the semantics of the Python
string split method with separator comma: splitting the empty string
yields one empty piece, and consecutive separators yield empty pieces. -/
def splitCommasAux : List Char → List Char → List (List Char)
  | [], acc => [acc.reverse]
  | c :: cs, acc =>
    if c = ',' then acc.reverse :: splitCommasAux cs []
    else splitCommasAux cs (c :: acc)

/-- The Python split method on the comma separator. -/
def py_split_comma (s : String) : List String :=
  (splitCommasAux s.data []).map String.mk

/-- The Python strip method: remove leading and trailing whitespace. -/
def py_strip (s : String) : String :=
  String.mk (((s.data.dropWhile Char.isWhitespace).reverse.dropWhile Char.isWhitespace).reverse)

/-- The Python upper method, character-wise upper-casing. -/
def py_upper (s : String) : String :=
  String.mk (s.data.map Char.toUpper)

/-- The symbol-list construction of BinanceApp.analyze_market, lines
169-170 of the source: strip the input, split on commas, strip and
upper-case each piece. -/
def parse_symbols (symbols_input : String) : List String :=
  (py_split_comma (py_strip symbols_input)).map fun s => py_upper (py_strip s)

/-- The rejection test of BinanceApp.analyze_market, line 172: the
request is rejected (message box, no thread started) when the parsed
list is empty or longer than 10.  Splitting always yields at least one
piece, so the emptiness disjunct never fires. -/
def analyze_market_rejects (symbols_input : String) : Bool :=
  let symbols := parse_symbols symbols_input
  symbols.isEmpty || decide (symbols.length > 10)

/-- BinanceApp.analyze_market, lines 164-185: on rejection nothing is
emitted; otherwise the analysis thread is started on the parsed symbols,
each paired with its provider outcome.  The API-client presence check
and the progress dialog are presentation concerns outside the model. -/
def analyze_market (ta : TaOracle) (symbols_input : String)
    (fetches : String → Option (List RawKline)) : List String :=
  if analyze_market_rejects symbols_input then []
  else run ta ((parse_symbols symbols_input).map fun s => ⟨s, fetches s⟩)

/-- A well-formed sample kline row whose four coerced columns parse. -/
def sampleKline : RawKline :=
  { timestamp := "0", open_ := "1", high := "3", low := "1", close := "2", volume := "5" }

/-- Fourteen sample rows: exactly the minimum the loop accepts. -/
def sampleKlines : List RawKline := List.replicate 14 sampleKline

/-- A constant indicator oracle whose values satisfy the buy branch:
ADX 30 above 25, MACD 2 above its signal 1, RSI 50 below 70, ATR 1. -/
def taBuy : TaOracle :=
  { macd := fun _ => 2
    macd_signal := fun _ => 1
    adx := fun _ => 30
    rsi := fun _ => 50
    average_true_range := fun _ => 1 }

/-- A constant indicator oracle hitting the classifier fall-through:
ADX 30 above 25, MACD 1 below its signal 2, RSI 20 not above 30, so
neither inner condition holds and market_analysis returns none. -/
def taCrash : TaOracle :=
  { macd := fun _ => 1
    macd_signal := fun _ => 2
    adx := fun _ => 30
    rsi := fun _ => 20
    average_true_range := fun _ => 1 }

/-- A three-symbol batch whose middle fetch raises. -/
def batchThree : List SymbolInput :=
  [⟨"AAAUSDT", some sampleKlines⟩, ⟨"BBBUSDT", none⟩, ⟨"CCCUSDT", some sampleKlines⟩]

/-- A one-symbol batch that analyses successfully. -/
def batchOne : List SymbolInput := [⟨"BTCUSDT", some sampleKlines⟩]

/-- A raw row whose open column is not numeric while high, low, close
and volume are. -/
def openRow : RawKline :=
  { timestamp := "0", open_ := "x", high := "3", low := "1", close := "2", volume := "5" }

/-- A raw row whose volume column is not numeric while high, low and
close are. -/
def volRow : RawKline :=
  { timestamp := "0", open_ := "1.5", high := "3", low := "1", close := "2", volume := "abc" }

/- ------------------------------------------------------------------ -/
/- Theorems.                                                          -/
/- ------------------------------------------------------------------ -/

/-- String concatenation is associative (strings are packed character
lists in this Lean version). -/
theorem string_append_assoc (a b c : String) : a ++ b ++ c = a ++ (b ++ c) := by
  cases a with
  | mk la =>
    cases b with
    | mk lb =>
      cases c with
      | mk lc =>
        show String.mk (la ++ lb ++ lc) = String.mk (la ++ (lb ++ lc))
        rw [List.append_assoc]

/-- chainStep is transitive. -/
theorem chainStep_trans {a b e : String} (h1 : chainStep a b) (h2 : chainStep b e) :
    chainStep a e := by
  obtain ⟨c1, rfl⟩ := h1
  obtain ⟨c2, rfl⟩ := h2
  exact ⟨c1 ++ c2, string_append_assoc a c1 c2⟩

/-- Appending extends a string. -/
theorem chainStep_append (a x : String) : chainStep a (a ++ x) := ⟨x, rfl⟩

/-- Every emission of the loop extends the transcript the loop started
from. -/
theorem runLoop_extends (ta : TaOracle) (syms : List SymbolInput) :
    ∀ acc e, e ∈ runLoop ta syms acc → chainStep acc e := by
  induction syms with
  | nil =>
    intro acc e he
    simp [runLoop] at he
  | cons s rest ih =>
    intro acc e he
    simp only [runLoop] at he
    split at he
    · exact chainStep_trans (chainStep_trans (chainStep_append _ _) (chainStep_append _ _)) (ih _ _ he)
    · split at he
      · exact chainStep_trans (chainStep_trans (chainStep_append _ _) (chainStep_append _ _)) (ih _ _ he)
      · split at he
        · exact chainStep_trans (chainStep_trans (chainStep_append _ _) (chainStep_append _ _)) (ih _ _ he)
        · split at he
          · simp at he
          · rcases List.mem_cons.mp he with h | h
            · subst h
              exact chainStep_trans (chainStep_append _ _) (chainStep_append _ _)
            · exact chainStep_trans
                (chainStep_trans (chainStep_append _ _) (chainStep_append _ _)) (ih _ _ h)

/-- The emissions of the loop form a chain under chainStep, pairwise. -/
theorem runLoop_chain (ta : TaOracle) (syms : List SymbolInput) :
    ∀ acc, List.Pairwise chainStep (runLoop ta syms acc) := by
  induction syms with
  | nil =>
    intro acc
    simp [runLoop]
  | cons s rest ih =>
    intro acc
    simp only [runLoop]
    split
    · exact ih _
    · split
      · exact ih _
      · split
        · exact ih _
        · split
          · exact List.Pairwise.nil
          · exact List.pairwise_cons.mpr ⟨fun e he => runLoop_extends ta rest _ e he, ih _⟩

/-- Every emission of the loop ends with a full analysis block. -/
theorem runLoop_blocks (ta : TaOracle) (syms : List SymbolInput) :
    ∀ acc e, e ∈ runLoop ta syms acc →
      ∃ pre s t g d, e = pre ++ analysisBlock s t g d := by
  induction syms with
  | nil =>
    intro acc e he
    simp [runLoop] at he
  | cons s rest ih =>
    intro acc e he
    simp only [runLoop] at he
    split at he
    · exact ih _ _ he
    · split at he
      · exact ih _ _ he
      · split at he
        · exact ih _ _ he
        · split at he
          · simp at he
          · rcases List.mem_cons.mp he with h | h
            · subst h
              exact ⟨_, _, _, _, _, rfl⟩
            · exact ih _ _ h

/-- In a batch where no symbol hits the classifier fall-through, the
number of emissions equals the number of fully analysed symbols. -/
theorem runLoop_length_eq (ta : TaOracle) (syms : List SymbolInput) :
    ∀ acc, (∀ s ∈ syms, symOutcome ta s ≠ SymOutcome.crash) →
      (runLoop ta syms acc).length
        = List.countP (fun s => decide (symOutcome ta s = SymOutcome.analysed)) syms := by
  induction syms with
  | nil =>
    intro acc _
    simp [runLoop]
  | cons s rest ih =>
    intro acc h
    have hs : symOutcome ta s ≠ SymOutcome.crash := h s (List.mem_cons_self s rest)
    have hr : ∀ x ∈ rest, symOutcome ta x ≠ SymOutcome.crash :=
      fun x hx => h x (List.mem_cons_of_mem s hx)
    simp only [runLoop]
    split
    · next hg =>
      have ho : symOutcome ta s = SymOutcome.noData := by
        simp [symOutcome, hg]
      rw [List.countP_cons, ih _ hr]
      simp [ho]
    · next data hg =>
      split
      · next hemp =>
        have ho : symOutcome ta s = SymOutcome.noData := by
          simp [symOutcome, hg, hemp]
        rw [List.countP_cons, ih _ hr]
        simp [ho]
      · next hemp =>
        split
        · next hlen =>
          have ho : symOutcome ta s = SymOutcome.insufficient := by
            simp [symOutcome, hg, hemp, hlen]
          rw [List.countP_cons, ih _ hr]
          simp [ho]
        · next hlen =>
          split
          · next hma =>
            exact absurd (by simp [symOutcome, hg, hemp, hlen, hma]) hs
          · next trend sig hma =>
            have ho : symOutcome ta s = SymOutcome.analysed := by
              simp [symOutcome, hg, hemp, hlen, hma]
            rw [List.length_cons, List.countP_cons, ih _ hr]
            simp [ho]

/-- C1.  On a snapshot with ADX strictly above 25 where neither the buy
condition (MACD above its signal line and RSI below 70) nor the sell
condition (MACD below its signal line and RSI above 30) holds, the claim
says the classifier returns the pair (Unstable, None); the code instead
has no return statement on this path, so market_analysis evaluates to
none (Python None) at the concrete snapshot MACD = 1, signal = 2,
ADX = 30, RSI = 20, and the caller's pair unpacking fails. -/
theorem market_analysis_fallthrough_none :
    market_analysis 1 2 30 20 = none := by
  decide

/-- C2 counterexample.  At the boundary snapshot with ADX exactly 20 the
claim says the classifier returns TrendLabel Sideways; the code returns
the pair (Unstable, None), whose label differs from Sideways. -/
theorem market_analysis_at_adx_20_not_sideways :
    market_analysis 0 0 20 50 = some (Trend.khongOnDinh, Signal.khong)
    ∧ Trend.khongOnDinh ≠ Trend.diNgang := by
  decide

/-- C2 amended.  For every snapshot with ADX at most 20 the classifier
returns signal None; the trend label is Sideways when ADX is strictly
below 20 and Unstable at the boundary value exactly 20. -/
theorem market_analysis_low_adx (latest_macd latest_signal adx_value rsi_value : ℚ)
    (h : adx_value ≤ 20) :
    ∃ t, market_analysis latest_macd latest_signal adx_value rsi_value
          = some (t, Signal.khong)
      ∧ (adx_value < 20 → t = Trend.diNgang)
      ∧ (adx_value = 20 → t = Trend.khongOnDinh) := by
  unfold market_analysis
  have h25 : ¬ adx_value > 25 := by linarith
  rw [if_neg h25]
  by_cases h20 : adx_value < 20
  · rw [if_pos h20]
    exact ⟨Trend.diNgang, rfl, fun _ => rfl, fun he => absurd (he ▸ h20) (by norm_num)⟩
  · rw [if_neg h20]
    exact ⟨Trend.khongOnDinh, rfl, fun hlt => absurd hlt h20, fun _ => rfl⟩

/-- C2 witness.  The amended statement instantiated at the snapshot
MACD = 0, signal = 0, ADX = 15, RSI = 50. -/
theorem market_analysis_low_adx_witness :
    ∃ t, market_analysis 0 0 15 50 = some (t, Signal.khong)
      ∧ ((15 : ℚ) < 20 → t = Trend.diNgang)
      ∧ ((15 : ℚ) = 20 → t = Trend.khongOnDinh) :=
  market_analysis_low_adx 0 0 15 50 (by norm_num)

/-- C3 counterexample.  A three-symbol batch whose middle fetch fails
performs exactly 2 emissions, not the 3 the claim requires: the failing
symbol appends its no-data line to the transcript but the loop continues
without emitting. -/
theorem run_batch_three_two_emissions :
    (run taBuy batchThree).length = 2 ∧ (2 : ℕ) ≠ 3 := by
  constructor
  · rfl
  · decide

/-- C3 amended.  In a batch where no symbol hits the classifier
fall-through, the loop appends one transcript entry per input symbol in
input order, but performs exactly one emission per FULLY ANALYSED
symbol: symbols whose fetch fails or returns an empty frame, and symbols
with fewer than 14 rows, append their no-data or insufficient-data line
without an emission of their own. -/
theorem run_length_analysed (ta : TaOracle) (syms : List SymbolInput)
    (h : ∀ s ∈ syms, symOutcome ta s ≠ SymOutcome.crash) :
    (run ta syms).length
      = List.countP (fun s => decide (symOutcome ta s = SymOutcome.analysed)) syms :=
  runLoop_length_eq ta syms "" h

/-- C3 witness.  The amended statement instantiated on the three-symbol
batch with the failing middle fetch. -/
theorem run_length_analysed_witness :
    (run taBuy batchThree).length
      = List.countP (fun s => decide (symOutcome taBuy s = SymOutcome.analysed)) batchThree :=
  run_length_analysed taBuy batchThree (by decide)

/-- C4.  The per-symbol step is not total: on a batch whose first symbol
yields the fall-through snapshot (ADX 30, MACD 1 below its signal 2,
RSI 20), market_analysis returns none, the unpacking assignment in run
raises, the thread dies, and the healthy second symbol is never
processed — zero emissions for the whole batch instead of a degraded
per-symbol result. -/
theorem run_aborts_on_classifier_fallthrough :
    run taCrash [⟨"AAAUSDT", some sampleKlines⟩, ⟨"BBBUSDT", some sampleKlines⟩] = [] := by
  rfl

/-- C5.  For every last close and ATR, a buy signal yields take-profit
lastClose + 2 ATR and stop-loss lastClose - 2 ATR, a sell signal yields
take-profit lastClose - 2 ATR and stop-loss lastClose + 2 ATR, and the
none signal yields no recommendation (entry is the last close itself,
the price the levels are measured from); in particular last close 100
and ATR 2 with a buy signal give take-profit 104 and stop-loss 96. -/
theorem trading_decision_levels (close_price latest_atr : ℚ) :
    trading_decision close_price latest_atr Signal.mua
      = Decision.moLenhMua (close_price + 2 * latest_atr) (close_price - 2 * latest_atr)
    ∧ trading_decision close_price latest_atr Signal.ban
      = Decision.moLenhBan (close_price - 2 * latest_atr) (close_price + 2 * latest_atr)
    ∧ trading_decision close_price latest_atr Signal.khong = Decision.khongKhuyenNghi
    ∧ trading_decision 100 2 Signal.mua = Decision.moLenhMua 104 96 := by
  refine ⟨?_, ?_, rfl, ?_⟩
  · simp [trading_decision, mul_comm]
  · simp [trading_decision, mul_comm]
  · norm_num [trading_decision]

/-- C6.  With positive ATR (the ATR is a smoothed true range, positive
for every window that is not completely flat, and a completely flat
window makes MACD equal its signal line so no buy or sell signal arises),
the recommendation direction matches the signal: a buy signal produces
only a buy order whose take-profit lies strictly above the entry (the
last close) and whose stop-loss lies strictly below it, a sell signal
produces only a sell order whose stop-loss lies strictly above the entry
and whose take-profit strictly below it, and the none signal produces no
recommendation. -/
theorem trading_decision_matches_signal (close_price latest_atr : ℚ)
    (h : 0 < latest_atr) :
    (trading_decision close_price latest_atr Signal.mua
        = Decision.moLenhMua (close_price + latest_atr * 2) (close_price - latest_atr * 2)
      ∧ close_price - latest_atr * 2 < close_price
      ∧ close_price < close_price + latest_atr * 2)
    ∧ (trading_decision close_price latest_atr Signal.ban
        = Decision.moLenhBan (close_price - latest_atr * 2) (close_price + latest_atr * 2)
      ∧ close_price - latest_atr * 2 < close_price
      ∧ close_price < close_price + latest_atr * 2)
    ∧ trading_decision close_price latest_atr Signal.khong = Decision.khongKhuyenNghi := by
  refine ⟨⟨rfl, by linarith, by linarith⟩, ⟨rfl, by linarith, by linarith⟩, rfl⟩

/-- C6 witness.  The buy clause instantiated at last close 100 and
ATR 2. -/
theorem trading_decision_matches_signal_witness :
    trading_decision 100 2 Signal.mua
      = Decision.moLenhMua (100 + 2 * 2) (100 - 2 * 2)
    ∧ (100 : ℚ) - 2 * 2 < 100
    ∧ (100 : ℚ) < 100 + 2 * 2 :=
  (trading_decision_matches_signal 100 2 (by norm_num)).1

/-- C7 counterexample.  The empty request is NOT rejected: splitting the
empty input yields the single empty-string symbol, so the parsed list is
non-empty and of length 1, the rejection test fails, and processing
proceeds. -/
theorem analyze_market_empty_not_rejected :
    analyze_market_rejects "" = false ∧ parse_symbols "" = [""] := by
  decide

/-- C7 amended.  A request whose parsed symbol list is longer than 10 is
rejected before any fetch and zero results are emitted; the emptiness
disjunct of the rejection test never fires because splitting always
yields at least one piece, so an empty input is processed rather than
rejected. -/
theorem analyze_market_reject_rule (ta : TaOracle) (symbols_input : String)
    (fetches : String → Option (List RawKline)) :
    (analyze_market_rejects symbols_input = true →
        analyze_market ta symbols_input fetches = [])
    ∧ ((parse_symbols symbols_input).length > 10 →
        analyze_market_rejects symbols_input = true) := by
  constructor
  · intro h
    simp [analyze_market, h]
  · intro h
    simp [analyze_market_rejects, h]

/-- C7 witness.  An eleven-symbol request is rejected with zero results. -/
theorem analyze_market_reject_rule_witness :
    analyze_market taBuy "a,b,c,d,e,f,g,h,i,j,k" (fun _ => none) = [] :=
  (analyze_market_reject_rule taBuy "a,b,c,d,e,f,g,h,i,j,k" (fun _ => none)).1
    ((analyze_market_reject_rule taBuy "a,b,c,d,e,f,g,h,i,j,k" (fun _ => none)).2 (by decide))

/-- C8.  The fetch granularity is not the caller's choice: the interval
argument of the futures_klines call is hard-coded to the daily interval,
differing from the combo box default selection 4h that the presentation
layer supplies; the window size is 100 as claimed. -/
theorem futures_klines_hardcoded_interval :
    futures_klines_interval = "1d"
    ∧ futures_klines_limit = 100
    ∧ interval_combo_default = "4h"
    ∧ interval_combo_default ∈ interval_combo_items
    ∧ futures_klines_interval ≠ interval_combo_default := by
  refine ⟨rfl, rfl, rfl, by decide, by decide⟩

/-- C9 counterexample.  A row whose open column holds the non-numeric
text x and whose high, low, close and volume are numeric survives the
processing with its open cell still the raw text, not the coercion of x
(which is NaN): the open column is never passed through numeric
coercion. -/
theorem frame_keeps_open_uncoerced :
    (get_historical_data_frame [openRow]).map ProcRow.open_ = [Cell.str "x"]
    ∧ pd_to_numeric "x" = Cell.nan
    ∧ Cell.str "x" ≠ Cell.nan := by
  decide

/-- C9 amended.  The processed frame keeps exactly the rows whose high,
low and close coerce to numbers, each processed row being the column-wise
coercion of a fetched raw row; per row the high, low, close and volume
cells are the numeric coercions of the raw text while open keeps its raw
text (volume failing coercion is tolerated: it is not in the dropna
subset); and a fetch whose processed frame is empty drives the loop into
the same no-data branch as a raised provider error. -/
theorem get_historical_data_frame_spec :
    (∀ klines r, r ∈ get_historical_data_frame klines ↔
        ∃ raw, raw ∈ klines
          ∧ (pd_to_numeric raw.high).isNan = false
          ∧ (pd_to_numeric raw.low).isNan = false
          ∧ (pd_to_numeric raw.close).isNan = false
          ∧ r = coerceRow raw)
    ∧ (∀ raw, (coerceRow raw).open_ = Cell.str raw.open_
        ∧ (coerceRow raw).high = pd_to_numeric raw.high
        ∧ (coerceRow raw).low = pd_to_numeric raw.low
        ∧ (coerceRow raw).close = pd_to_numeric raw.close
        ∧ (coerceRow raw).volume = pd_to_numeric raw.volume)
    ∧ (∀ ta name klines rest, get_historical_data_frame klines = [] →
        run ta (⟨name, some klines⟩ :: rest) = run ta (⟨name, none⟩ :: rest)) := by
  refine ⟨?_, ?_, ?_⟩
  · intro klines r
    simp only [get_historical_data_frame, List.mem_filter, List.mem_map, dropna_hlc,
      Bool.and_eq_true, Bool.not_eq_true']
    constructor
    · rintro ⟨⟨raw, hraw, rfl⟩, ⟨hh, hl⟩, hc⟩
      exact ⟨raw, hraw, hh, hl, hc, rfl⟩
    · rintro ⟨raw, hraw, hh, hl, hc, rfl⟩
      exact ⟨⟨raw, hraw, rfl⟩, ⟨hh, hl⟩, hc⟩
  · intro raw
    exact ⟨rfl, rfl, rfl, rfl, rfl⟩
  · intro ta name klines rest h
    simp [run, runLoop, get_historical_data, h]

/-- C9 witness.  The membership characterisation applied to the row
whose volume is the non-numeric text abc: the row is kept (volume
failures are tolerated) and its volume cell is NaN. -/
theorem get_historical_data_frame_spec_witness :
    coerceRow volRow ∈ get_historical_data_frame [volRow]
    ∧ (coerceRow volRow).volume = Cell.nan :=
  ⟨(get_historical_data_frame_spec.1 [volRow] (coerceRow volRow)).mpr
      ⟨volRow, by decide, by decide, by decide, by decide, rfl⟩,
    by decide⟩

/-- C10.  The emission stream of one run is cumulative: the emitted
strings are pairwise related by string extension (each earlier emission
is a prefix of every later one), and every emission ends with a full
analysis block, so an emission occurs only after a symbol is fully
analysed. -/
theorem run_emissions_cumulative (ta : TaOracle) (syms : List SymbolInput) :
    List.Pairwise chainStep (run ta syms)
    ∧ ∀ i (hi : i < (run ta syms).length),
        ∃ pre s t g d, (run ta syms).get ⟨i, hi⟩ = pre ++ analysisBlock s t g d :=
  ⟨runLoop_chain ta syms "",
    fun _ hi => runLoop_blocks ta syms "" _ (List.get_mem _ _ hi)⟩

/-- C10 witness.  The block characterisation applied to the first
emission of a one-symbol run. -/
theorem run_emissions_cumulative_witness :
    ∃ pre s t g d, (run taBuy batchOne).get ⟨0, by decide⟩ = pre ++ analysisBlock s t g d :=
  (run_emissions_cumulative taBuy batchOne).2 0 (by decide)

end CheckBinanceApp
